import Mathlib

/-
  Shallow embedding of `src/visualization-frame.ts` from
  stanvanrooy/third-party-visualization.

  The class `VisualizationFrame` owns an iframe (the embedded surface), a
  container element, and a callback registry
  `callbacks : { [key: string]: ((data: any) => void)[] }`.
  We model JS callbacks by their identity (a `Nat` reference), payloads of the
  outbound send path as lists of own enumerable string-keyed fields, and the
  opaque payloads of the dispatch path by an arbitrary type `α` (so that "same
  payload reference" is expressible as equality in `α`).
-/

set_option autoImplicit false

namespace TPV

universe u

/-- Atomic JS values appearing as the field values of a payload object.
Nested objects are shared by reference under the shallow copy in
`removeMethods`, so an opaque atom suffices for every claim. -/
inductive JsValue where
  | str : String → JsValue
  | num : Int → JsValue
  | jsBool : Bool → JsValue
  | null : JsValue
  deriving DecidableEq, Repr

/-- A JS object as its ordered list of own enumerable string-keyed fields. -/
abbrev Payload := List (String × JsValue)

/-- The `in` operator restricted to own fields: the objects built by
`removeMethods` are plain `\x7b\x7d`-prototype objects, whose prototype chain
contributes no field named `_configuratorContext`. -/
def hasField (p : Payload) (f : String) : Bool :=
  p.any (fun q => q.1 == f)

/-- A thrown JS `Error`, identified by its message. -/
structure JsError where
  message : String
  deriving DecidableEq, Repr

/-- The enum `ViewerEvent` (imported from `viewer-event.ts`, which only
declares the eight members used in `visualization-frame.ts`); its members are
the distinct registry keys. -/
inductive ViewerEvent where
  | TriggerConfigurationUpdate
  | UpdateRequirement
  | UpdateRequirements
  | UpdateImageValue
  | UpdateTextValue
  | UpdateLinkedConfigurationCardinality
  | RemoveLinkedConfiguration
  | DragStarted
  deriving DecidableEq, Repr

/-- The registry `\x7b [key: string]: ((data: any) => void)[] \x7d`: an
association list keyed by `ViewerEvent`, distinguishing an absent bucket from
an empty one, holding callback references in insertion order. -/
abbrev Registry := List (ViewerEvent × List Nat)

/-- Reading `this.callbacks[key]`: `none` when the key is absent. -/
def getBucket : Registry → ViewerEvent → Option (List Nat)
  | [], _ => none
  | (k', v) :: rest, k => if k' = k then some v else getBucket rest k

/-- Writing `this.callbacks[key] = v` (updates in place, or appends a new
key in insertion order). -/
def setBucket : Registry → ViewerEvent → List Nat → Registry
  | [], k, v => [(k, v)]
  | (k', v') :: rest, k, v =>
      if k' = k then (k, v) :: rest else (k', v') :: setBucket rest k v

/-- The bucket's contents, an absent bucket reading as empty. -/
def bucketContents (r : Registry) (k : ViewerEvent) : List Nat :=
  (getBucket r k).getD []

/-- `addCallback`: if the bucket is absent it is first created empty, then the
callback is pushed. -/
def addCallback (r : Registry) (key : ViewerEvent) (callback : Nat) : Registry :=
  let r' := match getBucket r key with
    | none => setBucket r key []
    | some _ => r
  setBucket r' key ((getBucket r' key).getD [] ++ [callback])

/-- One callback invocation: which callback reference was called, with which
payload value. -/
abbrev Invoked (α : Type u) := Nat × α

/-- `executeCallbacks`: returns the registry as the method leaves it together
with the sequence of invocations `callback(data)` it performs.  An absent
bucket returns immediately; otherwise `forEach` calls every callback in
order with the same `data`. -/
def executeCallbacks {α : Type u} (r : Registry) (key : ViewerEvent) (data : α) :
    Registry × List (Invoked α) :=
  match getBucket r key with
  | none => (r, [])
  | some cbs => (r, cbs.map (fun cb => (cb, data)))

/-- Running a dispatch's invocation list unguarded and sequentially, where
`run cb d` is the behaviour of the host callback `cb` on payload `d`: a
throwing callback aborts the remainder. -/
def runInvocations {α : Type u} (run : Nat → α → Except JsError Unit) :
    List (Invoked α) → Except JsError Unit
  | [] => .ok ()
  | (cb, d) :: rest =>
      match run cb d with
      | .error e => .error e
      | .ok _ => runInvocations run rest

/-- A DOM node as seen by `getContainer`: either an `HTMLElement` or some
other node kind (e.g. an SVG or XML element), carrying an identity. -/
inductive DomNode where
  | htmlElement : Nat → DomNode
  | otherNode : Nat → DomNode
  deriving DecidableEq, Repr

/-- `instanceof HTMLElement`. -/
def DomNode.isHTMLElement : DomNode → Bool
  | .htmlElement _ => true
  | .otherNode _ => false

/-- The host document, modelled by what `document.querySelector` answers for
each selector string. -/
abbrev Document := List (String × DomNode)

/-- `document.querySelector`: the node the document associates to the
selector, if any. -/
def querySelector : Document → String → Option DomNode
  | [], _ => none
  | (s', n) :: rest, s => if s' = s then some n else querySelector rest s

/-- The `container` option: a selector string or a direct element handle. -/
inductive ContainerOption where
  | selector : String → ContainerOption
  | element : DomNode → ContainerOption
  deriving DecidableEq, Repr

/-- `VisualizationFrameOptions` (from `models.ts`): the recognized options. -/
structure VisualizationFrameOptions where
  container : ContainerOption
  url : String
  deriving DecidableEq, Repr

/-- `getContainer`: resolves a selector through `document.querySelector`,
throwing when nothing matches or the match is not an `HTMLElement`; a direct
element handle is returned as-is. -/
def getContainer (doc : Document) (options : VisualizationFrameOptions) :
    Except JsError DomNode :=
  match options.container with
  | .selector s =>
      match querySelector doc s with
      | none => .error ⟨"Container not found"⟩
      | some element =>
          if !element.isHTMLElement then
            .error ⟨"Container must be an HTMLElement"⟩
          else
            .ok element
  | .element e => .ok e

/-- The spec's error taxonomy names the two construction-time throws of
`getContainer` (unresolved key, wrong element kind) `ContainerResolutionError`. -/
def isContainerResolutionError (e : JsError) : Bool :=
  e.message == "Container not found" || e.message == "Container must be an HTMLElement"

/-- The spec's error taxonomy names the send-time throw of `sendMessage`
(`contentWindow` absent) `NoChannelError`. -/
def NoChannelError : JsError :=
  ⟨"Native element does not have a content window"⟩

/-- The observable state of a `VisualizationFrame` instance: the resolved
container, whether `nativeElement.contentWindow` is available (a fact of the
host environment: the iframe must sit in a live document), the messages
posted to that content window in order, and the callback registry. -/
structure VisualizationFrame where
  container : DomNode
  contentWindowAvailable : Bool
  posted : List (String × Payload)
  callbacks : Registry
  deriving DecidableEq, Repr

/-- The constructor: resolves the container via `getContainer` (propagating
its throw, so no instance is produced), renders the iframe, and starts with
an empty registry (`callbacks = \x7b\x7d`).  Whether the freshly rendered
iframe has a content window is the host environment's `cw`. -/
def construct (doc : Document) (cw : Bool) (options : VisualizationFrameOptions) :
    Except JsError VisualizationFrame :=
  match getContainer doc options with
  | .error e => .error e
  | .ok container => .ok ⟨container, cw, [], []⟩

/-- `removeMethods`: shallow-copies the payload's own enumerable fields into
a fresh object, then deletes `_configuratorContext` when present. -/
def removeMethods (data : Payload) : Payload :=
  let o : Payload := data
  if hasField o "_configuratorContext" then
    o.filter (fun p => !(p.1 == "_configuratorContext"))
  else
    o

/-- `sendMessage`: throws `NoChannelError` when the iframe has no content
window (leaving the instance untouched); otherwise posts the envelope
`\x7b name, args: removeMethods data \x7d` to the content window. -/
def sendMessage (st : VisualizationFrame) (name : String) (data : Payload) :
    Except JsError Unit × VisualizationFrame :=
  if !st.contentWindowAvailable then
    (.error NoChannelError, st)
  else
    (.ok (), { st with posted := st.posted ++ [(name, removeMethods data)] })

/-- `sendConfigurationUpdated`. -/
def sendConfigurationUpdated (st : VisualizationFrame) (configuration : Payload) :
    Except JsError Unit × VisualizationFrame :=
  sendMessage st "elfsquad.configurationUpdated" configuration

/-- `sendStepChanged`. -/
def sendStepChanged (st : VisualizationFrame) (step : Payload) :
    Except JsError Unit × VisualizationFrame :=
  sendMessage st "elfsquad.stepChanged" step

/-- Registering through one of the eight public `on<Event>` methods, each of
which is `addCallback` at its fixed `ViewerEvent`. -/
def onTriggerConfigurationUpdate (st : VisualizationFrame) (callback : Nat) :
    VisualizationFrame :=
  { st with callbacks := addCallback st.callbacks .TriggerConfigurationUpdate callback }

/-- `onUpdateRequirement`. -/
def onUpdateRequirement (st : VisualizationFrame) (callback : Nat) : VisualizationFrame :=
  { st with callbacks := addCallback st.callbacks .UpdateRequirement callback }

/-- `onUpdateRequirements`. -/
def onUpdateRequirements (st : VisualizationFrame) (callback : Nat) : VisualizationFrame :=
  { st with callbacks := addCallback st.callbacks .UpdateRequirements callback }

/-- `onUpdateImageValue`. -/
def onUpdateImageValue (st : VisualizationFrame) (callback : Nat) : VisualizationFrame :=
  { st with callbacks := addCallback st.callbacks .UpdateImageValue callback }

/-- `onUpdateTextValue`. -/
def onUpdateTextValue (st : VisualizationFrame) (callback : Nat) : VisualizationFrame :=
  { st with callbacks := addCallback st.callbacks .UpdateTextValue callback }

/-- `onUpdateLinkedConfigurationCardinality`. -/
def onUpdateLinkedConfigurationCardinality (st : VisualizationFrame) (callback : Nat) :
    VisualizationFrame :=
  { st with callbacks :=
      addCallback st.callbacks .UpdateLinkedConfigurationCardinality callback }

/-- `onDragStarted`. -/
def onDragStarted (st : VisualizationFrame) (callback : Nat) : VisualizationFrame :=
  { st with callbacks := addCallback st.callbacks .DragStarted callback }

/-- `onRemoveLinkedConfiguration`. -/
def onRemoveLinkedConfiguration (st : VisualizationFrame) (callback : Nat) :
    VisualizationFrame :=
  { st with callbacks := addCallback st.callbacks .RemoveLinkedConfiguration callback }

/-- The `on<Event>` registration method belonging to each event kind. -/
def onMethodFor (k : ViewerEvent) : VisualizationFrame → Nat → VisualizationFrame :=
  match k with
  | .TriggerConfigurationUpdate => onTriggerConfigurationUpdate
  | .UpdateRequirement => onUpdateRequirement
  | .UpdateRequirements => onUpdateRequirements
  | .UpdateImageValue => onUpdateImageValue
  | .UpdateTextValue => onUpdateTextValue
  | .UpdateLinkedConfigurationCardinality => onUpdateLinkedConfigurationCardinality
  | .RemoveLinkedConfiguration => onRemoveLinkedConfiguration
  | .DragStarted => onDragStarted

/-- `event.data.args` of the `MessageEvent` handed to a protected dispatch
method; the payload type is opaque. -/
structure MessageEventData (α : Type u) where
  args : α

/-- Protected `triggerConfigurationUpdate`. -/
def triggerConfigurationUpdate {α : Type u} (st : VisualizationFrame)
    (event : MessageEventData α) : Registry × List (Invoked α) :=
  executeCallbacks st.callbacks .TriggerConfigurationUpdate event.args

/-- Protected `updateRequirement`. -/
def updateRequirement {α : Type u} (st : VisualizationFrame)
    (event : MessageEventData α) : Registry × List (Invoked α) :=
  executeCallbacks st.callbacks .UpdateRequirement event.args

/-- Protected `updateRequirements`. -/
def updateRequirements {α : Type u} (st : VisualizationFrame)
    (event : MessageEventData α) : Registry × List (Invoked α) :=
  executeCallbacks st.callbacks .UpdateRequirements event.args

/-- Protected `updateImageValue`. -/
def updateImageValue {α : Type u} (st : VisualizationFrame)
    (event : MessageEventData α) : Registry × List (Invoked α) :=
  executeCallbacks st.callbacks .UpdateImageValue event.args

/-- Protected `updateTextValue`. -/
def updateTextValue {α : Type u} (st : VisualizationFrame)
    (event : MessageEventData α) : Registry × List (Invoked α) :=
  executeCallbacks st.callbacks .UpdateTextValue event.args

/-- Protected `updateLinkedConfigurationCardinality`. -/
def updateLinkedConfigurationCardinality {α : Type u} (st : VisualizationFrame)
    (event : MessageEventData α) : Registry × List (Invoked α) :=
  executeCallbacks st.callbacks .UpdateLinkedConfigurationCardinality event.args

/-- Protected `removeLinkedConfiguration`. -/
def removeLinkedConfiguration {α : Type u} (st : VisualizationFrame)
    (event : MessageEventData α) : Registry × List (Invoked α) :=
  executeCallbacks st.callbacks .RemoveLinkedConfiguration event.args

/-- Protected `dragStarted`. -/
def dragStarted {α : Type u} (st : VisualizationFrame)
    (event : MessageEventData α) : Registry × List (Invoked α) :=
  executeCallbacks st.callbacks .DragStarted event.args

/-- The protected dispatch method belonging to each event kind. -/
def dispatchMethodFor {α : Type u} (k : ViewerEvent) :
    VisualizationFrame → MessageEventData α → Registry × List (Invoked α) :=
  match k with
  | .TriggerConfigurationUpdate => triggerConfigurationUpdate
  | .UpdateRequirement => updateRequirement
  | .UpdateRequirements => updateRequirements
  | .UpdateImageValue => updateImageValue
  | .UpdateTextValue => updateTextValue
  | .UpdateLinkedConfigurationCardinality => updateLinkedConfigurationCardinality
  | .RemoveLinkedConfiguration => removeLinkedConfiguration
  | .DragStarted => dragStarted

/-- Modelled from the spec: the Message Receiver (`event-handler.ts`, which is
not under `src/`) reads an inbound envelope's `name`, maps it through a fixed
string-to-kind table, and invokes the corresponding protected dispatch method
with `envelope.args`; a name the table does not map is silently ignored.  The
spec does not fix the concrete inbound name strings, so the table is a
parameter. -/
def onMessageArrived {α : Type u} (table : List (String × ViewerEvent))
    (st : VisualizationFrame) (name : String) (args : α) :
    Registry × List (Invoked α) :=
  match table.lookup name with
  | none => (st.callbacks, [])
  | some k => dispatchMethodFor k st ⟨args⟩

/-- Folding a sequence of registrations (event kind, callback reference)
through `addCallback`, oldest first. -/
def registerAll (regs : List (ViewerEvent × Nat)) (r : Registry) : Registry :=
  match regs with
  | [] => r
  | (k, c) :: rest => registerAll rest (addCallback r k c)

/-! ### Basic lemmas about the registry operations -/

/-- Writing a bucket makes it readable at its own key. -/
theorem getBucket_setBucket_self (r : Registry) (k : ViewerEvent) (v : List Nat) :
    getBucket (setBucket r k v) k = some v := by
  induction r with
  | nil => simp [setBucket, getBucket]
  | cons hd tl ih =>
      obtain ⟨k', v'⟩ := hd
      by_cases h : k' = k <;> simp [setBucket, getBucket, h, ih]

/-- Writing a bucket leaves every other key's bucket unchanged. -/
theorem getBucket_setBucket_ne (r : Registry) (k k' : ViewerEvent) (v : List Nat)
    (h : k' ≠ k) : getBucket (setBucket r k v) k' = getBucket r k' := by
  induction r with
  | nil => simp [setBucket, getBucket, Ne.symm h]
  | cons hd tl ih =>
      obtain ⟨k'', v''⟩ := hd
      by_cases h2 : k'' = k
      · subst h2
        simp [setBucket, getBucket, Ne.symm h]
      · simp [setBucket, getBucket, h2, ih]

/-- `addCallback` appends the callback to its own key's bucket, creating it
from empty when absent. -/
theorem getBucket_addCallback_self (r : Registry) (k : ViewerEvent) (c : Nat) :
    getBucket (addCallback r k c) k = some (bucketContents r k ++ [c]) := by
  unfold addCallback bucketContents
  cases hg : getBucket r k with
  | none => simp [hg, getBucket_setBucket_self]
  | some b => simp [hg, getBucket_setBucket_self]

/-- `addCallback` leaves every other key's bucket untouched. -/
theorem getBucket_addCallback_ne (r : Registry) (k k' : ViewerEvent) (c : Nat)
    (h : k' ≠ k) : getBucket (addCallback r k c) k' = getBucket r k' := by
  unfold addCallback
  cases hg : getBucket r k with
  | none => simp [hg, getBucket_setBucket_ne _ _ _ _ h]
  | some b => simp [hg, getBucket_setBucket_ne _ _ _ _ h]

/-- The contents view of `addCallback`. -/
theorem bucketContents_addCallback (r : Registry) (k k' : ViewerEvent) (c : Nat) :
    bucketContents (addCallback r k c) k' =
      if k = k' then bucketContents r k' ++ [c] else bucketContents r k' := by
  by_cases h : k = k'
  · subst h
    simp [bucketContents, getBucket_addCallback_self]
  · simp [bucketContents, getBucket_addCallback_ne _ _ _ _ (Ne.symm h), h]

/-- `executeCallbacks` returns the registry unchanged. -/
theorem executeCallbacks_fst {α : Type u} (r : Registry) (k : ViewerEvent) (d : α) :
    (executeCallbacks r k d).1 = r := by
  unfold executeCallbacks
  cases hg : getBucket r k <;> simp

/-- The invocations of `executeCallbacks` are the bucket's callbacks, in
order, each paired with the dispatched payload. -/
theorem executeCallbacks_snd {α : Type u} (r : Registry) (k : ViewerEvent) (d : α) :
    (executeCallbacks r k d).2 = (bucketContents r k).map (fun cb => (cb, d)) := by
  unfold executeCallbacks bucketContents
  cases hg : getBucket r k <;> simp

/-- Folding registrations accumulates, per key, exactly the callbacks
registered at that key, in registration order. -/
theorem bucketContents_registerAll (regs : List (ViewerEvent × Nat)) (r : Registry)
    (K : ViewerEvent) :
    bucketContents (registerAll regs r) K =
      bucketContents r K ++ (regs.filter (fun q => q.1 = K)).map Prod.snd := by
  induction regs generalizing r with
  | nil => simp [registerAll]
  | cons hd tl ih =>
      obtain ⟨k, c⟩ := hd
      by_cases h : k = K
      · subst h
        simp [registerAll, ih, bucketContents_addCallback, List.filter]
      · simp [registerAll, ih, bucketContents_addCallback, h, List.filter]

/-- Each `on<Event>` method is `addCallback` at its event kind. -/
theorem onMethodFor_eq (k : ViewerEvent) (st : VisualizationFrame) (c : Nat) :
    onMethodFor k st c = { st with callbacks := addCallback st.callbacks k c } := by
  cases k <;> rfl

/-- Each protected dispatch method is `executeCallbacks` at its event kind on
`event.args`. -/
theorem dispatchMethodFor_eq {α : Type u} (k : ViewerEvent) (st : VisualizationFrame)
    (e : MessageEventData α) :
    dispatchMethodFor k st e = executeCallbacks st.callbacks k e.args := by
  cases k <;> rfl

/-- A successfully constructed frame starts with an empty registry, an empty
posted list, and the environment's content-window availability. -/
theorem construct_ok (doc : Document) (cw : Bool) (options : VisualizationFrameOptions)
    (st : VisualizationFrame) (h : construct doc cw options = .ok st) :
    st.callbacks = [] ∧ st.posted = [] ∧ st.contentWindowAvailable = cw := by
  unfold construct at h
  cases hg : getContainer doc options with
  | error e => rw [hg] at h; cases h
  | ok c =>
      rw [hg] at h
      cases h
      exact ⟨rfl, rfl, rfl⟩

/-- `removeMethods` is the filter that drops the `_configuratorContext`
field and keeps every other field with its value, in order. -/
theorem removeMethods_eq_filter (p : Payload) :
    removeMethods p = p.filter (fun q => !(q.1 == "_configuratorContext")) := by
  unfold removeMethods
  by_cases h : hasField p "_configuratorContext"
  · simp [h]
  · have hfalse : hasField p "_configuratorContext" = false := by
      simpa using h
    unfold hasField at hfalse
    rw [List.any_eq_false] at hfalse
    have h' : ∀ q ∈ p, (!(q.1 == "_configuratorContext")) = true := by
      intro q hq
      simpa using hfalse q hq
    rw [if_neg h]
    exact (List.filter_eq_self.mpr h').symm

/-- Sanitizing a payload without the back-reference field changes nothing. -/
theorem removeMethods_of_not_hasField (p : Payload)
    (hf : hasField p "_configuratorContext" = false) : removeMethods p = p := by
  show (if hasField p "_configuratorContext" = true
      then p.filter (fun q => !(q.1 == "_configuratorContext")) else p) = p
  rw [hf]
  simp

/-- The sanitized payload never carries the `_configuratorContext` field. -/
theorem hasField_removeMethods (p : Payload) :
    hasField (removeMethods p) "_configuratorContext" = false := by
  rw [removeMethods_eq_filter]
  unfold hasField
  rw [List.any_eq_false]
  intro q hq
  simpa using List.of_mem_filter hq

/-! ### Concrete fixtures -/

/-- A document whose selector `#showroom` resolves to an `HTMLElement`. -/
def docA : Document := [("#showroom", DomNode.htmlElement 0)]

/-- A document whose only selector `#svg` resolves to a non-HTML node. -/
def docB : Document := [("#svg", DomNode.otherNode 1)]

/-- Options addressing the container by the selector `#showroom`. -/
def optsA : VisualizationFrameOptions :=
  ⟨.selector "#showroom", "https://example.test"⟩

/-- Options addressing a selector nothing resolves. -/
def optsMissing : VisualizationFrameOptions :=
  ⟨.selector "#missing", "https://example.test"⟩

/-- Options addressing the selector resolving to a non-HTML node. -/
def optsSvg : VisualizationFrameOptions :=
  ⟨.selector "#svg", "https://example.test"⟩

/-- A live frame: content window available, nothing posted, empty registry. -/
def frameLive : VisualizationFrame := ⟨DomNode.htmlElement 0, true, [], []⟩

/-- A frame whose iframe has no content window. -/
def frameDead : VisualizationFrame := ⟨DomNode.htmlElement 0, false, [], []⟩

/-- A configuration payload carrying the back-reference field. -/
def cfgA : Payload := [("price", JsValue.num 3), ("_configuratorContext", JsValue.null)]

/-- A step payload without the back-reference field. -/
def stepA : Payload := [("title", JsValue.str "step 1")]

/-- A one-entry inbound name table for exercising the Message Receiver. -/
def tableA : List (String × ViewerEvent) :=
  [("elfsquad.triggerConfigurationUpdate", ViewerEvent.TriggerConfigurationUpdate)]

/-! ### The claims -/

/-- C1: after constructing a `VisualizationFrame` and registering a callback
`C` for event kind `K` exactly once through the `on<Event>` method for `K`,
dispatching `K` with payload `P` through the protected dispatch method for
`K` invokes `C` exactly once, with argument `P`. -/
theorem C1_register_once_dispatch_once {α : Type u} (doc : Document) (cw : Bool)
    (opts : VisualizationFrameOptions) (st : VisualizationFrame)
    (K : ViewerEvent) (C : Nat) (P : α)
    (h : construct doc cw opts = .ok st) :
    (dispatchMethodFor K (onMethodFor K st C) ⟨P⟩).2 = [(C, P)] := by
  obtain ⟨hcb, -, -⟩ := construct_ok doc cw opts st h
  rw [dispatchMethodFor_eq, onMethodFor_eq, executeCallbacks_snd]
  show List.map (fun cb => (cb, P)) (bucketContents (addCallback st.callbacks K C) K) =
    [(C, P)]
  rw [bucketContents_addCallback, if_pos rfl, hcb]
  rfl

/-- Concrete instantiation of `C1_register_once_dispatch_once`. -/
theorem C1_register_once_dispatch_once_witness :
    construct docA true optsA = .ok frameLive ∧
    (dispatchMethodFor ViewerEvent.TriggerConfigurationUpdate
        (onMethodFor ViewerEvent.TriggerConfigurationUpdate frameLive 7)
        ⟨(42 : Nat)⟩).2 = [(7, 42)] :=
  ⟨by rfl,
   C1_register_once_dispatch_once docA true optsA frameLive
     ViewerEvent.TriggerConfigurationUpdate 7 42 (by rfl)⟩

/-- C2: `sendConfigurationUpdated cfg` posts an envelope named
`elfsquad.configurationUpdated`; when `cfg` carries `_configuratorContext`
the envelope's args lacks that field, and when it does not, the args is the
shallow copy of `cfg` with no field removed. -/
theorem C2_sendConfigurationUpdated_envelope (st : VisualizationFrame) (cfg : Payload)
    (h : st.contentWindowAvailable = true) :
    sendConfigurationUpdated st cfg =
      (.ok (), { st with posted :=
        st.posted ++ [("elfsquad.configurationUpdated", removeMethods cfg)] }) ∧
    (hasField cfg "_configuratorContext" = true →
      hasField (removeMethods cfg) "_configuratorContext" = false) ∧
    (hasField cfg "_configuratorContext" = false → removeMethods cfg = cfg) := by
  refine ⟨?_, fun _ => hasField_removeMethods cfg,
    fun hf => removeMethods_of_not_hasField cfg hf⟩
  simp [sendConfigurationUpdated, sendMessage, h]

/-- Concrete instantiation of `C2_sendConfigurationUpdated_envelope`. -/
theorem C2_sendConfigurationUpdated_envelope_witness :
    frameLive.contentWindowAvailable = true ∧
    (sendConfigurationUpdated frameLive cfgA =
      (.ok (), { frameLive with posted :=
        frameLive.posted ++ [("elfsquad.configurationUpdated", removeMethods cfgA)] }) ∧
    (hasField cfgA "_configuratorContext" = true →
      hasField (removeMethods cfgA) "_configuratorContext" = false) ∧
    (hasField cfgA "_configuratorContext" = false → removeMethods cfgA = cfgA)) :=
  ⟨rfl, C2_sendConfigurationUpdated_envelope frameLive cfgA rfl⟩

/-- C3 counterexample: at the step payload `[("_configuratorContext", null)]`
(with a live channel and empty posted list), `sendStepChanged` posts an
envelope whose args is the empty object, which is not structurally equal to
the step. -/
theorem C3_stepChanged_not_always_verbatim :
    (sendStepChanged frameLive [("_configuratorContext", JsValue.null)]).2.posted =
      [("elfsquad.stepChanged", [])] ∧
    ([] : Payload) ≠ [("_configuratorContext", JsValue.null)] := by
  exact ⟨by rfl, by decide⟩

/-- C3 (amended): `sendStepChanged step` posts an envelope named
`elfsquad.stepChanged` whose args is `step` with the `_configuratorContext`
field removed (every other field kept with its value, in order); in
particular, for every step lacking that field the args is structurally equal
to `step`. -/
theorem C3_stepChanged_envelope_amended (st : VisualizationFrame) (step : Payload)
    (h : st.contentWindowAvailable = true) :
    sendStepChanged st step =
      (.ok (), { st with posted :=
        st.posted ++ [("elfsquad.stepChanged", removeMethods step)] }) ∧
    removeMethods step = step.filter (fun q => !(q.1 == "_configuratorContext")) ∧
    (hasField step "_configuratorContext" = false → removeMethods step = step) := by
  refine ⟨?_, removeMethods_eq_filter step,
    fun hf => removeMethods_of_not_hasField step hf⟩
  simp [sendStepChanged, sendMessage, h]

/-- Concrete instantiation of `C3_stepChanged_envelope_amended`. -/
theorem C3_stepChanged_envelope_amended_witness :
    frameLive.contentWindowAvailable = true ∧
    (sendStepChanged frameLive stepA =
      (.ok (), { frameLive with posted :=
        frameLive.posted ++ [("elfsquad.stepChanged", removeMethods stepA)] }) ∧
    removeMethods stepA = stepA.filter (fun q => !(q.1 == "_configuratorContext")) ∧
    (hasField stepA "_configuratorContext" = false → removeMethods stepA = stepA)) :=
  ⟨rfl, C3_stepChanged_envelope_amended frameLive stepA rfl⟩

/-- C4: registering the same callback `C` twice for kind `K` (no
deduplication) and dispatching `K` once with payload `P` invokes `C`
exactly twice, both times with the same payload `P`. -/
theorem C4_register_twice_dispatch_twice {α : Type u} (doc : Document) (cw : Bool)
    (opts : VisualizationFrameOptions) (st : VisualizationFrame)
    (K : ViewerEvent) (C : Nat) (P : α)
    (h : construct doc cw opts = .ok st) :
    (dispatchMethodFor K (onMethodFor K (onMethodFor K st C) C) ⟨P⟩).2 =
      [(C, P), (C, P)] := by
  obtain ⟨hcb, -, -⟩ := construct_ok doc cw opts st h
  rw [dispatchMethodFor_eq, onMethodFor_eq, onMethodFor_eq, executeCallbacks_snd]
  show List.map (fun cb => (cb, P))
      (bucketContents (addCallback (addCallback st.callbacks K C) K C) K) =
    [(C, P), (C, P)]
  rw [bucketContents_addCallback, if_pos rfl, bucketContents_addCallback, if_pos rfl, hcb]
  rfl

/-- Concrete instantiation of `C4_register_twice_dispatch_twice`. -/
theorem C4_register_twice_dispatch_twice_witness :
    construct docA true optsA = .ok frameLive ∧
    (dispatchMethodFor ViewerEvent.UpdateRequirement
        (onMethodFor ViewerEvent.UpdateRequirement
          (onMethodFor ViewerEvent.UpdateRequirement frameLive 7) 7)
        ⟨(42 : Nat)⟩).2 = [(7, 42), (7, 42)] :=
  ⟨by rfl,
   C4_register_twice_dispatch_twice docA true optsA frameLive
     ViewerEvent.UpdateRequirement 7 42 (by rfl)⟩

/-- C5: dispatching `K` with payload `P` invokes every callback in `K`'s
bucket in insertion order, each with the same payload `P`; for a registry
built from any registration sequence, the invocations are exactly the
callbacks registered for `K`, oldest first. -/
theorem C5_dispatch_insertion_order {α : Type u} (r : Registry)
    (regs : List (ViewerEvent × Nat)) (K : ViewerEvent) (P : α) :
    (executeCallbacks r K P).2 = (bucketContents r K).map (fun cb => (cb, P)) ∧
    (executeCallbacks (registerAll regs []) K P).2 =
      (regs.filter (fun q => q.1 = K)).map (fun q => (q.2, P)) := by
  refine ⟨executeCallbacks_snd r K P, ?_⟩
  rw [executeCallbacks_snd, bucketContents_registerAll]
  simp [bucketContents, getBucket, List.map_map, Function.comp]

/-- C6: dispatching an event kind whose bucket was never created, or
delivering an inbound message whose name maps to no known kind, performs
zero invocations, and running those (zero) invocations raises nothing,
whatever the callbacks would do. -/
theorem C6_unknown_message_ignored {α : Type u} (table : List (String × ViewerEvent))
    (st : VisualizationFrame) (K : ViewerEvent) (name : String) (P : α)
    (run : Nat → α → Except JsError Unit)
    (hK : getBucket st.callbacks K = none)
    (hname : table.lookup name = none) :
    (executeCallbacks st.callbacks K P).2 = [] ∧
    runInvocations run (executeCallbacks st.callbacks K P).2 = .ok () ∧
    (onMessageArrived table st name P).2 = [] ∧
    runInvocations run (onMessageArrived table st name P).2 = .ok () := by
  have h1 : (executeCallbacks st.callbacks K P).2 = ([] : List (Invoked α)) := by
    simp [executeCallbacks, hK]
  have h2 : (onMessageArrived table st name P).2 = ([] : List (Invoked α)) := by
    simp [onMessageArrived, hname]
  exact ⟨h1, by rw [h1]; rfl, h2, by rw [h2]; rfl⟩

/-- Concrete instantiation of `C6_unknown_message_ignored`. -/
theorem C6_unknown_message_ignored_witness :
    getBucket frameLive.callbacks ViewerEvent.DragStarted = none ∧
    tableA.lookup "elfsquad.unknownMessage" = none ∧
    ((executeCallbacks frameLive.callbacks ViewerEvent.DragStarted (0 : Nat)).2 = [] ∧
    runInvocations (fun _ _ => .ok ())
      (executeCallbacks frameLive.callbacks ViewerEvent.DragStarted (0 : Nat)).2 = .ok () ∧
    (onMessageArrived tableA frameLive "elfsquad.unknownMessage" (0 : Nat)).2 = [] ∧
    runInvocations (fun _ _ => .ok ())
      (onMessageArrived tableA frameLive "elfsquad.unknownMessage" (0 : Nat)).2 = .ok ()) :=
  ⟨rfl, by rfl,
   C6_unknown_message_ignored tableA frameLive ViewerEvent.DragStarted
     "elfsquad.unknownMessage" 0 (fun _ _ => .ok ()) rfl (by rfl)⟩

/-- C7: constructing with a selector that matches no element throws
`Container not found`, and constructing with a selector resolving to a node
that is not an `HTMLElement` throws `Container must be an HTMLElement`; both
are the spec's `ContainerResolutionError`, and no instance is produced in
either case. -/
theorem C7_container_resolution_error (doc : Document) (cw : Bool)
    (sel1 sel2 : String) (nd : DomNode)
    (opts1 opts2 : VisualizationFrameOptions)
    (h1 : opts1.container = .selector sel1)
    (h2 : opts2.container = .selector sel2)
    (hq1 : querySelector doc sel1 = none)
    (hq2 : querySelector doc sel2 = some nd)
    (hnd : nd.isHTMLElement = false) :
    construct doc cw opts1 = .error ⟨"Container not found"⟩ ∧
    isContainerResolutionError ⟨"Container not found"⟩ = true ∧
    (∀ fr, construct doc cw opts1 ≠ .ok fr) ∧
    construct doc cw opts2 = .error ⟨"Container must be an HTMLElement"⟩ ∧
    isContainerResolutionError ⟨"Container must be an HTMLElement"⟩ = true ∧
    (∀ fr, construct doc cw opts2 ≠ .ok fr) := by
  have hc1 : construct doc cw opts1 = .error ⟨"Container not found"⟩ := by
    simp [construct, getContainer, h1, hq1]
  have hc2 : construct doc cw opts2 = .error ⟨"Container must be an HTMLElement"⟩ := by
    simp [construct, getContainer, h2, hq2, hnd]
  refine ⟨hc1, rfl, fun fr hfr => ?_, hc2, rfl, fun fr hfr => ?_⟩
  · rw [hc1] at hfr
    exact Except.noConfusion hfr
  · rw [hc2] at hfr
    exact Except.noConfusion hfr

/-- Concrete instantiation of `C7_container_resolution_error`. -/
theorem C7_container_resolution_error_witness :
    optsMissing.container = ContainerOption.selector "#missing" ∧
    optsSvg.container = ContainerOption.selector "#svg" ∧
    querySelector docB "#missing" = none ∧
    querySelector docB "#svg" = some (DomNode.otherNode 1) ∧
    (DomNode.otherNode 1).isHTMLElement = false ∧
    (construct docB true optsMissing = .error ⟨"Container not found"⟩ ∧
    isContainerResolutionError ⟨"Container not found"⟩ = true ∧
    (∀ fr, construct docB true optsMissing ≠ .ok fr) ∧
    construct docB true optsSvg = .error ⟨"Container must be an HTMLElement"⟩ ∧
    isContainerResolutionError ⟨"Container must be an HTMLElement"⟩ = true ∧
    (∀ fr, construct docB true optsSvg ≠ .ok fr)) :=
  ⟨rfl, rfl, by rfl, by rfl, rfl,
   C7_container_resolution_error docB true "#missing" "#svg" (DomNode.otherNode 1)
     optsMissing optsSvg rfl rfl (by rfl) (by rfl) rfl⟩

/-- C8: calling either send method with the content window unavailable
throws `NoChannelError` and leaves the instance — posted messages and the
callback registry — exactly as before the call. -/
theorem C8_send_no_channel (st : VisualizationFrame) (cfg stp : Payload)
    (h : st.contentWindowAvailable = false) :
    sendConfigurationUpdated st cfg = (.error NoChannelError, st) ∧
    sendStepChanged st stp = (.error NoChannelError, st) ∧
    (sendConfigurationUpdated st cfg).2.posted = st.posted ∧
    (sendConfigurationUpdated st cfg).2.callbacks = st.callbacks ∧
    (sendStepChanged st stp).2.posted = st.posted ∧
    (sendStepChanged st stp).2.callbacks = st.callbacks := by
  have h1 : sendConfigurationUpdated st cfg = (.error NoChannelError, st) := by
    simp [sendConfigurationUpdated, sendMessage, h]
  have h2 : sendStepChanged st stp = (.error NoChannelError, st) := by
    simp [sendStepChanged, sendMessage, h]
  exact ⟨h1, h2, by rw [h1], by rw [h1], by rw [h2], by rw [h2]⟩

/-- Concrete instantiation of `C8_send_no_channel`. -/
theorem C8_send_no_channel_witness :
    frameDead.contentWindowAvailable = false ∧
    (sendConfigurationUpdated frameDead cfgA = (.error NoChannelError, frameDead) ∧
    sendStepChanged frameDead stepA = (.error NoChannelError, frameDead) ∧
    (sendConfigurationUpdated frameDead cfgA).2.posted = frameDead.posted ∧
    (sendConfigurationUpdated frameDead cfgA).2.callbacks = frameDead.callbacks ∧
    (sendStepChanged frameDead stepA).2.posted = frameDead.posted ∧
    (sendStepChanged frameDead stepA).2.callbacks = frameDead.callbacks) :=
  ⟨rfl, C8_send_no_channel frameDead cfgA stepA rfl⟩

/-- C9: registration appends the callback to exactly the registered kind's
bucket, leaving every other bucket unchanged; dispatch returns the registry
unmutated and its invocations depend only on the single bucket it reads. -/
theorem C9_registry_bucket_invariant {α : Type u} (r r' : Registry)
    (k k' : ViewerEvent) (c : Nat) (d : α)
    (hne : k' ≠ k) (hsame : getBucket r' k = getBucket r k) :
    getBucket (addCallback r k c) k = some (bucketContents r k ++ [c]) ∧
    getBucket (addCallback r k c) k' = getBucket r k' ∧
    (executeCallbacks r k d).1 = r ∧
    (executeCallbacks r' k d).2 = (executeCallbacks r k d).2 := by
  refine ⟨getBucket_addCallback_self r k c, getBucket_addCallback_ne r k k' c hne,
    executeCallbacks_fst r k d, ?_⟩
  simp only [executeCallbacks_snd, bucketContents, hsame]

/-- Concrete instantiation of `C9_registry_bucket_invariant`. -/
theorem C9_registry_bucket_invariant_witness :
    ViewerEvent.UpdateRequirement ≠ ViewerEvent.TriggerConfigurationUpdate ∧
    getBucket [(ViewerEvent.DragStarted, [9]), (ViewerEvent.TriggerConfigurationUpdate, [1])]
        ViewerEvent.TriggerConfigurationUpdate =
      getBucket [(ViewerEvent.TriggerConfigurationUpdate, [1])]
        ViewerEvent.TriggerConfigurationUpdate ∧
    (getBucket (addCallback [(ViewerEvent.TriggerConfigurationUpdate, [1])]
        ViewerEvent.TriggerConfigurationUpdate 5) ViewerEvent.TriggerConfigurationUpdate =
      some (bucketContents [(ViewerEvent.TriggerConfigurationUpdate, [1])]
        ViewerEvent.TriggerConfigurationUpdate ++ [5]) ∧
    getBucket (addCallback [(ViewerEvent.TriggerConfigurationUpdate, [1])]
        ViewerEvent.TriggerConfigurationUpdate 5) ViewerEvent.UpdateRequirement =
      getBucket [(ViewerEvent.TriggerConfigurationUpdate, [1])] ViewerEvent.UpdateRequirement ∧
    (executeCallbacks [(ViewerEvent.TriggerConfigurationUpdate, [1])]
        ViewerEvent.TriggerConfigurationUpdate (0 : Nat)).1 =
      [(ViewerEvent.TriggerConfigurationUpdate, [1])] ∧
    (executeCallbacks [(ViewerEvent.DragStarted, [9]), (ViewerEvent.TriggerConfigurationUpdate, [1])]
        ViewerEvent.TriggerConfigurationUpdate (0 : Nat)).2 =
      (executeCallbacks [(ViewerEvent.TriggerConfigurationUpdate, [1])]
        ViewerEvent.TriggerConfigurationUpdate (0 : Nat)).2) :=
  ⟨by decide, by rfl,
   C9_registry_bucket_invariant
     [(ViewerEvent.TriggerConfigurationUpdate, [1])]
     [(ViewerEvent.DragStarted, [9]), (ViewerEvent.TriggerConfigurationUpdate, [1])]
     ViewerEvent.TriggerConfigurationUpdate ViewerEvent.UpdateRequirement 5 0
     (by decide) (by rfl)⟩

/-- C10: both send methods post as args the sanitized shallow copy of the
payload: the `_configuratorContext` field is never present in any outbound
envelope, and every other field is kept with its value, in order. -/
theorem C10_outbound_always_sanitized (st : VisualizationFrame) (payload : Payload)
    (h : st.contentWindowAvailable = true) :
    (sendConfigurationUpdated st payload).2.posted =
      st.posted ++ [("elfsquad.configurationUpdated", removeMethods payload)] ∧
    (sendStepChanged st payload).2.posted =
      st.posted ++ [("elfsquad.stepChanged", removeMethods payload)] ∧
    hasField (removeMethods payload) "_configuratorContext" = false ∧
    removeMethods payload = payload.filter (fun q => !(q.1 == "_configuratorContext")) := by
  refine ⟨?_, ?_, hasField_removeMethods payload, removeMethods_eq_filter payload⟩ <;>
    simp [sendConfigurationUpdated, sendStepChanged, sendMessage, h]

/-- Concrete instantiation of `C10_outbound_always_sanitized`. -/
theorem C10_outbound_always_sanitized_witness :
    frameLive.contentWindowAvailable = true ∧
    ((sendConfigurationUpdated frameLive cfgA).2.posted =
      frameLive.posted ++ [("elfsquad.configurationUpdated", removeMethods cfgA)] ∧
    (sendStepChanged frameLive cfgA).2.posted =
      frameLive.posted ++ [("elfsquad.stepChanged", removeMethods cfgA)] ∧
    hasField (removeMethods cfgA) "_configuratorContext" = false ∧
    removeMethods cfgA = cfgA.filter (fun q => !(q.1 == "_configuratorContext"))) :=
  ⟨rfl, C10_outbound_always_sanitized frameLive cfgA rfl⟩

end TPV
